import Mathlib

/-!
Verification of the Clara_BE research backend against its specification.

The definitions below are shallow embeddings of the Python sources:
  * src/research/services/search_service.py  (SearchService)
  * src/research/services/pipeline_service.py (ResearchPipeline.research_politician)
  * src/research/services/politician_service.py (PoliticianPipeline.enrich_politician)
  * src/research/models.py (Politician, ResearchResult.is_recent)
  * src/chat/views.py (QuestionView.post)

Machine strings are modelled with Lean `String` (ASCII inputs), timestamps in
whole days (Python computes `(timezone.now() - created_at).days`), exceptions
with `Except`, and external collaborators (network search, HTTP fetch, the
Gemini LLM) as oracle functions supplied in an environment record.
-/

namespace Clara

/-! ### Python-style string primitives -/

/-- Test whether `pat` is an initial segment of `l` (Python `str.startswith`
restricted to the character list view). -/
def takesLead (pat : List Char) : List Char → Bool
  | [] => pat.isEmpty
  | c :: rest =>
    match pat with
    | [] => true
    | p :: ps => p == c && takesLead ps rest

/-- Substring search: Python's `needle in hay`. -/
def listFind (needle : List Char) : List Char → Bool
  | [] => needle.isEmpty
  | c :: rest => takesLead needle (c :: rest) || listFind needle rest

/-- Python `needle in hay` on strings. -/
def strIn (needle hay : String) : Bool :=
  listFind needle.data hay.data

/-- Python `s.startswith(p)`. -/
def sStartsWith (s p : String) : Bool :=
  takesLead p.data s.data

/-- Python `s.endswith(p)`. -/
def sEndsWith (s p : String) : Bool :=
  takesLead p.data.reverse s.data.reverse

/-- Python `s.lower()` (ASCII). -/
def pyLower (s : String) : String := ⟨s.data.map Char.toLower⟩

/-- Python `s.strip()` with no arguments: drop whitespace from both ends. -/
def pyStrip (s : String) : String :=
  ⟨((s.data.dropWhile Char.isWhitespace).reverse.dropWhile Char.isWhitespace).reverse⟩

/-- Accumulator loop for `pySplitWs`; `cur` holds the current word reversed. -/
def pySplitWsAux (cur : List Char) : List Char → List String
  | [] => if cur.isEmpty then [] else [String.mk cur.reverse]
  | c :: rest =>
    if c.isWhitespace then
      if cur.isEmpty then pySplitWsAux [] rest
      else String.mk cur.reverse :: pySplitWsAux [] rest
    else pySplitWsAux (c :: cur) rest

/-- Python `s.split()` with no arguments: split on whitespace runs, dropping
empty pieces. -/
def pySplitWs (s : String) : List String :=
  pySplitWsAux [] s.data

/-- Drop everything up to and including the first occurrence of `sep`;
models `s.split(sep, 1)[1]` at call sites where `sep` is known to occur. -/
def afterFirstAux (sep : List Char) : List Char → List Char
  | [] => []
  | c :: rest =>
    if takesLead sep (c :: rest) then (c :: rest).drop sep.length
    else afterFirstAux sep rest

/-- String version of `afterFirstAux`. -/
def afterFirst (sep s : String) : String :=
  ⟨afterFirstAux sep.data s.data⟩

/-! ### urlparse and SearchService.is_website_url
(src/research/services/search_service.py lines 107-145) -/

/-- Characters allowed in a URL scheme after the leading letter
(CPython `urllib.parse.scheme_chars`). -/
def schemeChar (c : Char) : Bool :=
  c.isAlphanum || c == '+' || c == '-' || c == '.'

/-- Split a character list at the first occurrence of `stop`, dropping the
separator; `none` when absent. -/
def splitAtFirst (stop : Char) : List Char → Option (List Char × List Char)
  | [] => none
  | c :: rest =>
    if c == stop then some ([], rest)
    else match splitAtFirst stop rest with
      | some (before, after) => some (c :: before, after)
      | none => none

/-- Take characters until one of `stops` is hit; the delimiter stays in the
remainder (used for the netloc of a URL). -/
def takeUntilAny (stops : List Char) : List Char → List Char × List Char
  | [] => ([], [])
  | c :: rest =>
    if stops.contains c then ([], c :: rest)
    else
      let (before, after) := takeUntilAny stops rest
      (c :: before, after)

/-- Result of `urllib.parse.urlparse` (params field omitted; unused here). -/
structure UrlParts where
  scheme : String
  netloc : String
  path : String
  query : String
  frag : String
deriving DecidableEq

/-- Shallow model of `urllib.parse.urlparse`: an initial `letter scheme_chars* :`
becomes the (lowercased) scheme, `//...` introduces the netloc up to the first
of `/?#`, then the fragment and query are split off and the rest is the path. -/
def pyUrlparse (url : String) : UrlParts :=
  let chars := url.data
  let (scheme, rest) :=
    match splitAtFirst ':' chars with
    | some (before, after) =>
      match before with
      | [] => ("", chars)
      | c0 :: cs =>
        if c0.isAlpha && cs.all schemeChar then (pyLower ⟨before⟩, after)
        else ("", chars)
    | none => ("", chars)
  let (netloc, rest2) :=
    if takesLead ['/', '/'] rest then
      let (n, r) := takeUntilAny ['/', '?', '#'] (rest.drop 2)
      (String.mk n, r)
    else ("", rest)
  let (rest3, frag) :=
    match splitAtFirst '#' rest2 with
    | some (before, after) => (before, String.mk after)
    | none => (rest2, "")
  let (path, query) :=
    match splitAtFirst '?' rest3 with
    | some (before, after) => (String.mk before, String.mk after)
    | none => (String.mk rest3, "")
  ⟨scheme, netloc, path, query, frag⟩

/-- File extensions rejected by `is_website_url`
(search_service.py lines 113-118). -/
def excludedExtensions : List String :=
  [".pdf", ".doc", ".docx", ".ppt", ".pptx", ".xls", ".xlsx",
   ".jpg", ".jpeg", ".png", ".gif", ".bmp", ".tiff", ".svg",
   ".mp3", ".mp4", ".avi", ".mov", ".wmv", ".flv", ".zip",
   ".rar", ".tar", ".gz", ".7z"]

/-- Scan for `\.(pdf|doc|jpg|png)` with no newline before the dot: the
`.*\.(pdf|doc|jpg|png)` tail of the query-parameter regex, searched from a
fixed start. -/
def dotExtScan : List Char → Bool
  | [] => false
  | c :: rest =>
    (c == '.' &&
      (takesLead "pdf".data rest || takesLead "doc".data rest ||
       takesLead "jpg".data rest || takesLead "png".data rest)) ||
    (c != '\n' && dotExtScan rest)

/-- Match `file(name|type)=.*\.(pdf|doc|jpg|png)` anchored at the head of the
list. -/
def fileParamHere (l : List Char) : Bool :=
  takesLead "file".data l &&
    (let r1 := l.drop 4
     (takesLead "name".data r1 || takesLead "type".data r1) &&
       (let r2 := r1.drop 4
        takesLead ['='] r2 && dotExtScan (r2.drop 1)))

/-- Search the whole list for the `file(name|type)=.*\.(pdf|doc|jpg|png)`
pattern (models `re.search(r'file(name|type)=.*\.(pdf|doc|jpg|png)', url.lower())`,
search_service.py line 140). -/
def fileParamSearch : List Char → Bool
  | [] => false
  | c :: rest => fileParamHere (c :: rest) || fileParamSearch rest

/-- SearchService.is_website_url (search_service.py lines 107-145): reject
relative URLs, URLs without scheme or netloc, paths ending in an excluded file
extension, and file-download query parameters. -/
def is_website_url (url : String) : Bool :=
  if sStartsWith url "/" then false
  else
    let parsed := pyUrlparse url
    if parsed.scheme == "" || parsed.netloc == "" then false
    else
      let path := pyLower parsed.path
      if excludedExtensions.any (fun ext => sEndsWith path ext) then false
      else if fileParamSearch (pyLower url).data then false
      else true

/-! ### SearchService.generate_search_queries
(search_service.py lines 40-105) -/

/-- De-duplication loop of generate_search_queries (lines 99-102): keep the
first occurrence of each query string, preserving order. -/
def dedupLoop (acc : List String) : List String → List String
  | [] => acc
  | q :: rest =>
    if q ∈ acc then dedupLoop acc rest
    else dedupLoop (acc ++ [q]) rest

/-- SearchService.generate_search_queries: 16 base templated queries plus 4
position-specific ones when the position is non-blank, de-duplicated by exact
string. -/
def generateSearchQueries (name position : String) : List String :=
  let baseQueries :=
    [name ++ " " ++ position,
     name ++ " politician background",
     name ++ " biography",
     name ++ " political career"]
  let accomplishmentQueries :=
    [name ++ " accomplishments",
     name ++ " legislation authored",
     name ++ " policy success"]
  let criticismQueries :=
    [name ++ " controversy and scandal",
     name ++ " corruption allegations",
     name ++ " criticism",
     name ++ " ethics investigation"]
  let backgroundQueries :=
    [name ++ " education background",
     name ++ " political history",
     name ++ " family background",
     name ++ " business interests",
     name ++ " financial disclosure"]
  let allQueries :=
    baseQueries ++ accomplishmentQueries ++ criticismQueries ++ backgroundQueries
  let allQueries :=
    if position ≠ "" ∧ 0 < (pyStrip position).length then
      allQueries ++
        [name ++ " " ++ position ++ " record",
         name ++ " " ++ position ++ " performance",
         name ++ " " ++ position ++ " tenure",
         name ++ " before " ++ position]
    else allQueries
  dedupLoop [] allQueries

/-! ### SearchService._verify_politician_match
(search_service.py lines 741-791) -/

/-- Common Filipino surnames hard-coded in `_verify_politician_match`
(line 775). -/
def commonSurnames : List String :=
  ["garcia", "santos", "reyes", "cruz", "dela cruz", "gonzales", "bautista", "lopez"]

/-- Role keywords accepted as reinforcing evidence for a common surname
(lines 783-784). -/
def politicalTerms : List String :=
  ["politician", "mayor", "governor", "senator", "congressman",
   "representative", "official", "elected", "public servant"]

/-- Lowercased surname of a name: `name.lower().split()[-1]`, or `""` when the
name has no parts. -/
def surnameOf (name : String) : String :=
  match (pySplitWs (pyLower name)).getLast? with
  | some s => s
  | none => ""

/-- The `f"{name_parts[0][0]}. {surname}"` pattern of line 780, or `""` when
the name has fewer than one part. -/
def initialPlusSurname (name : String) : String :=
  match pySplitWs (pyLower name) with
  | [] => ""
  | p0 :: _ =>
    match p0.data with
    | [] => ""
    | c :: _ => String.mk [c] ++ ". " ++ surnameOf name

/-- SearchService._verify_politician_match: heuristic check that an article
extract is about the intended politician. -/
def verifyPoliticianMatch (text name position : String) : Bool :=
  let textLower := pyLower text
  let nameLower := pyLower name
  let nameParts := pySplitWs nameLower
  -- lines 757-761: position keyword (only when longer than 3 chars) + surname
  if (position != "") && decide (3 < position.length) &&
      strIn (pyLower position) textLower &&
      (decide (0 < nameParts.length) && strIn (surnameOf name) textLower) then
    true
  -- lines 764-765: exact name match
  else if strIn nameLower textLower then
    true
  else
    -- lines 768-788: surname-based heuristics
    let surname := surnameOf name
    if (surname != "") && strIn surname textLower then
      if !(commonSurnames.contains surname) then true
      else if decide (100 < (pySplitWs textLower).length) then
        if decide (1 < nameParts.length) && strIn (initialPlusSurname name) textLower then
          true
        else if politicalTerms.any (fun t => strIn t textLower) then true
        else false
      else false
    else false

/-! ### SearchService.search / _google_search
(search_service.py lines 147-221) -/

/-- Python-level exception values relevant to the embedded services. -/
inductive PyErr where
  | attrError (obj attr : String)
  | valueError (msg : String)
  | other (msg : String)
deriving DecidableEq

/-- Python `str(e)` for the exceptions above (Python additionally wraps the
object and attribute names of an AttributeError in single quotes). -/
def PyErr.message : PyErr → String
  | .attrError obj attr => obj ++ " object has no attribute " ++ attr
  | .valueError msg => msg
  | .other msg => msg

/-- One entry of the list returned by SearchService.search. -/
structure SearchHit where
  url : String
  title : String
  snippet : String
  query : String
deriving DecidableEq

/-- URL-collection loop of `_google_search` (lines 180-188): keep URLs passing
`is_website_url` from the provider's stream, stopping once `2 * num_results`
are collected. -/
def collectValidUrls (cap : Nat) (acc : List String) : List String → List String
  | [] => acc
  | u :: rest =>
    if is_website_url u then
      let acc2 := acc ++ [u]
      if cap ≤ acc2.length then acc2
      else collectValidUrls cap acc2 rest
    else collectValidUrls cap acc rest

/-- Per-URL loop of `_google_search` (lines 193-214): stop at `num_results`
hits, fetch title and snippet (a failing fetch is swallowed and the URL is
skipped), and drop empty or placeholder snippets. -/
def collectResults (fetcher : String → Except PyErr (String × String))
    (numResults : Nat) (acc : List (String × String × String)) :
    List String → List (String × String × String)
  | [] => acc
  | u :: rest =>
    if numResults ≤ acc.length then acc
    else
      match fetcher u with
      | .error _ => collectResults fetcher numResults acc rest
      | .ok (title, snippet) =>
        if (snippet != "") && (pyStrip snippet != "No snippet available") then
          collectResults fetcher numResults (acc ++ [(u, title, snippet)]) rest
        else collectResults fetcher numResults acc rest

/-- SearchService._google_search: `provider` models the `googlesearch.search`
generator (asked for `3 * num_results` raw URLs; a provider failure is caught
by the outer handler, which returns `[]`), `fetcher` models
`_get_title_and_snippet`. -/
def googleSearch (provider : String → Nat → Except PyErr (List String))
    (fetcher : String → Except PyErr (String × String))
    (query : String) (numResults : Nat) : List (String × String × String) :=
  match provider query (numResults * 3) with
  | .error _ => []
  | .ok urls =>
    let valid := collectValidUrls (numResults * 2) [] urls
    collectResults fetcher numResults [] valid

/-- SearchService.search (lines 147-171): dispatch on the engine name, attach
the originating query to every hit; an unsupported engine raises ValueError. -/
def searchService (engine : String)
    (provider : String → Nat → Except PyErr (List String))
    (fetcher : String → Except PyErr (String × String))
    (query : String) (numResults : Nat) : Except PyErr (List SearchHit) :=
  if pyLower engine == "google" then
    let results := googleSearch provider fetcher query numResults
    .ok (results.map fun r => ⟨r.1, r.2.1, r.2.2, query⟩)
  else
    .error (.valueError ("Search engine " ++ engine ++ " not supported"))

/-! ### Data model (src/research/models.py)

Timestamps are whole days; `is_recent` compares the day difference. -/

/-- Politician model (models.py lines 5-26). Its only fields are `name`,
`position`, `image_url`, `created_at`; there is no `party`, `bio` or `issues`
field. -/
structure Politician where
  id : Nat
  name : String
  position : String
  image_url : Option String
  createdAt : Int
deriving DecidableEq

/-- One entry of ResearchResult.sources. -/
structure SourceRec where
  url : String
  title : String
  query : String
  content : String
deriving DecidableEq

/-- ResearchResult model (models.py lines 29-55). -/
structure ResearchRow where
  id : Nat
  politicianId : Nat
  position : String
  background : String
  accomplishments : String
  criticisms : String
  summary : String
  sources : List SourceRec
  createdAt : Int
deriving DecidableEq

/-- ResearchResult.is_recent (models.py lines 53-55):
`(timezone.now() - self.created_at).days <= days`. -/
def isRecent (now : Int) (r : ResearchRow) (days : Int) : Bool :=
  decide (now - r.createdAt ≤ days)

/-- Persistence store for politicians and research rows. -/
structure DB where
  politicians : List Politician
  results : List ResearchRow
  nextId : Nat
deriving DecidableEq

/-- Exact-match lookup used by `Politician.objects.get_or_create(name=name)`
(pipeline_service.py line 79); the match on `name` is case-sensitive. With
several rows of the same name Django's `get` would raise
MultipleObjectsReturned, likewise absorbed by the pipeline's outer handler;
we model the single-row read. -/
def findByName (db : DB) (name : String) : Option Politician :=
  db.politicians.find? (fun p => p.name == name)

/-- `Politician.objects.get_or_create(name=name)`: returns the row, the
`created` flag, and the updated store. Unspecified fields get their Django
defaults (blank position, null image). -/
def getOrCreate (db : DB) (name : String) (now : Int) : Politician × Bool × DB :=
  match findByName db name with
  | some p => (p, false, db)
  | none =>
    let p : Politician := ⟨db.nextId, name, "", none, now⟩
    (p, true,
     { db with politicians := db.politicians ++ [p], nextId := db.nextId + 1 })

/-- `ResearchResult.objects.filter(politician=..., position__iexact=position)
.order_by('-created_at').first()` (pipeline_service.py lines 87-90): the
position match is case-insensitive; among equal timestamps the earliest-stored
row is kept, as under a stable descending sort. -/
def latestResult (db : DB) (polId : Nat) (position : String) : Option ResearchRow :=
  let matching := db.results.filter
    (fun r => r.politicianId == polId && pyLower r.position == pyLower position)
  matching.foldl
    (fun best r =>
      match best with
      | none => some r
      | some b => if b.createdAt < r.createdAt then some r else best)
    none

/-! ### PoliticianPipeline.enrich_politician
(politician_service.py lines 30-63) -/

/-- Reading `politician.party`: the Politician model defines no `party` field,
so the attribute read raises AttributeError. -/
def getAttrParty (_p : Politician) : Except PyErr String :=
  .error (.attrError "Politician" "party")

/-- LLMService (llm_service.py lines 13-46) defines `query` and the four
`analyze_politician_*` methods only; `extract_party_affiliation` is absent, so
calling it on an LLMService instance raises AttributeError. -/
def llmExtractPartyAffiliation (_name _position : String)
    (_content : List String) : Except PyErr String :=
  .error (.attrError "LLMService" "extract_party_affiliation")

/-- PoliticianPipeline.enrich_politician: its first statement is
`if not politician.party:` (line 44), whose attribute read fails before any of
the enrichment work can run; the remaining reads of `politician.bio` and
`politician.issues` and the calls to the undefined LLMService extract methods
are behind it. -/
def enrichPolitician (p : Politician) (_position : String) : Except PyErr Politician :=
  match getAttrParty p with
  | .error e => .error e
  | .ok _party => .ok p

/-! ### ResearchPipeline.research_politician
(pipeline_service.py lines 56-227) -/

/-- External collaborators of one pipeline invocation. `normalize` models
`SearchService.normalize_politician_name`, `searchFor` models
`SearchService.search`, `fetchContent` models `SearchService.fetch_content`,
and the four `analyze*` fields model the staged LLMService calls;
`llmAvailable` is false when LLMService construction failed and
`self.llm_service` is `None` (lines 43-49). -/
structure Env where
  normalize : String → String → Except PyErr (String × Option String)
  llmAvailable : Bool
  searchFor : String → Nat → Except PyErr (List (String × String × String))
  fetchContent : String → Except PyErr String
  analyzeBackground : String → String → List String → Except PyErr String
  analyzeAccomplishments : String → String → List String → Except PyErr String
  analyzeCriticisms : String → String → List String → Except PyErr String
  analyzeSummary : String → String → String → String → String → List String →
    Except PyErr String

/-- Pipeline stages recorded for order-of-execution reasoning. -/
inductive Event where
  | normalizeStage
  | cacheCheck
  | enrich
  | queryGen
  | searchStage
  | fetchStage
  | analyze
  | persist
deriving DecidableEq

/-- One element of `content_list` (pipeline_service.py lines 134-139). -/
structure ContentDict where
  url : String
  title : String
  content : String
  query : String
deriving DecidableEq

/-- Diagnostic dictionary values returned by the pipeline. -/
inductive PyVal where
  | str (s : String)
  | pol (p : Politician)
  | contents (l : List ContentDict)
deriving DecidableEq

/-- Return value of research_politician: a ResearchResult instance or a plain
dictionary. -/
inductive Outcome where
  | research (r : ResearchRow)
  | dict (entries : List (String × PyVal))
deriving DecidableEq

/-- Step 3 of the pipeline (lines 113-119): run the search per query, attach
the originating query to each result, and concatenate; an exception from any
search call escapes to the pipeline's outer handler. -/
def searchAll (env : Env) : List String →
    Except PyErr (List (String × String × String × String))
  | [] => .ok []
  | q :: rest => do
    let results ← env.searchFor q 2
    let tagged := results.map (fun r => (r.1, r.2.1, r.2.2, q))
    let more ← searchAll env rest
    pure (tagged ++ more)

/-- Step 4 of the pipeline (lines 124-141): fetch each result URL and keep
those with at least 500 characters of stripped content. -/
def fetchAll (env : Env) : List (String × String × String × String) →
    Except PyErr (List ContentDict)
  | [] => .ok []
  | r :: rest => do
    let content ← env.fetchContent r.1
    let more ← fetchAll env rest
    if content = "" ∨ (pyStrip content).length < 500 then pure more
    else pure ({ url := r.1, title := r.2.1, content, query := r.2.2.2 } :: more)

/-- Step 5's four staged LLM calls (lines 148-181): background,
accomplishments and criticisms from the raw content, then the summary from the
three prior outputs. -/
def runAnalyses (env : Env) (name position : String) (texts : List String) :
    Except PyErr (String × String × String × String) := do
  let bg ← env.analyzeBackground name position texts
  let acc ← env.analyzeAccomplishments name position texts
  let crit ← env.analyzeCriticisms name position texts
  let summ ← env.analyzeSummary name position bg acc crit texts
  pure (bg, acc, crit, summ)

/-- Steps 5-6 of the pipeline (lines 143-219): if the LLM service is available
and content was extracted, run the staged analyses inside the inner
try/except — a failure there yields the partial-results dictionary — and on
success persist a new ResearchResult; otherwise return the no-content
dictionary. -/
def analyzePersist (env : Env) (pol : Politician) (db : DB) (now : Int)
    (name position : String) (contentList : List ContentDict)
    (tr : List Event) : Outcome × DB × List Event :=
  let texts := contentList.map (fun c => c.content)
  if env.llmAvailable && !texts.isEmpty then
    match runAnalyses env name position texts with
    | .ok (bg, acc, crit, summ) =>
      let row : ResearchRow :=
        ⟨db.nextId, pol.id, position, bg, acc, crit, summ,
         contentList.map (fun c => ⟨c.url, c.title, c.query, c.content⟩), now⟩
      (.research row,
       { db with results := db.results ++ [row], nextId := db.nextId + 1 },
       tr ++ [.analyze, .persist])
    | .error e =>
      (.dict [("politician", .pol pol), ("error", .str e.message),
              ("content_list", .contents contentList)],
       db, tr ++ [.analyze])
  else
    (.dict [("politician", .pol pol),
            ("error", .str "No content found or LLM service unavailable"),
            ("content_list", .contents contentList)],
     db, tr)

/-- Steps 2-6 of the pipeline: query generation, search, fetch, then
`analyzePersist`; search and fetch exceptions escape to the outer handler
carrying the current name binding and store. -/
def laterStages (env : Env) (pol : Politician) (db : DB) (now : Int)
    (name position : String) (tr : List Event) :
    Except (PyErr × String × DB × List Event) (Outcome × DB × List Event) :=
  let queries := generateSearchQueries name position
  let tr1 := tr ++ [Event.queryGen]
  match searchAll env queries with
  | .error e => .error (e, name, db, tr1 ++ [Event.searchStage])
  | .ok allResults =>
    let tr2 := tr1 ++ [Event.searchStage]
    match fetchAll env allResults with
    | .error e => .error (e, name, db, tr2 ++ [Event.fetchStage])
    | .ok contentList =>
      .ok (analyzePersist env pol db now name position contentList
            (tr2 ++ [Event.fetchStage]))

/-- Body of research_politician inside the outer try (lines 67-219). An
`error` value carries the exception, the current `name` binding (rebound to
the normalized name at line 76), the store as mutated so far, and the trace.

Control flow from the source: Step 0 normalizes the name; Step 1 get-or-creates
the politician by exact name; Step 1.2 (existing politician only) returns a
sufficiently fresh prior result for the position; Step 1.5 evaluates
`created or not politician.party or not politician.image_url` — for a created
row the short-circuit enters enrich_politician, which fails reading `party`;
for an existing row the condition itself reads `politician.party` and raises.
Steps 2-6 are therefore unreachable but embedded in `laterStages`. -/
def researchBody (env : Env) (db : DB) (now : Int) (name position : String)
    (maxAge : Int) :
    Except (PyErr × String × DB × List Event) (Outcome × DB × List Event) :=
  match env.normalize name position with
  | .error e => .error (e, name, db, [Event.normalizeStage])
  | .ok (nname, _wiki) =>
    match getOrCreate db nname now with
    | (pol, created, db1) =>
      if created then
        match enrichPolitician pol position with
        | .error e => .error (e, nname, db1, [Event.normalizeStage, Event.enrich])
        | .ok pol1 =>
          laterStages env pol1 db1 now nname position
            [Event.normalizeStage, Event.enrich]
      else
        let cacheHit :=
          match latestResult db1 pol.id position with
          | some r => if isRecent now r maxAge then some r else none
          | none => none
        match cacheHit with
        | some r => .ok (.research r, db1, [Event.normalizeStage, Event.cacheCheck])
        | none =>
          -- Step 1.5 condition `created or not politician.party or ...`:
          -- with `created` false the read of `politician.party` raises.
          .error (.attrError "Politician" "party", nname, db1,
                  [Event.normalizeStage, Event.cacheCheck])

/-- ResearchPipeline.research_politician (lines 56-227): the outer
try/except converts any escaped exception into the
`{"name": ..., "position": ..., "error": ...}` dictionary. Returns the
outcome, the store after the call, and the stage trace. -/
def researchPolitician (env : Env) (db : DB) (now : Int)
    (name position : String) (maxAge : Int) : Outcome × DB × List Event :=
  match researchBody env db now name position maxAge with
  | .ok (out, db2, tr) => (out, db2, tr)
  | .error (e, nameNow, db2, tr) =>
    (.dict [("name", .str nameNow), ("position", .str position),
            ("error", .str e.message)],
     db2, tr)

/-! ### QuestionView.post question-answering flow
(src/chat/views.py lines 197-237) -/

/-- Modelled from the spec: `LLMService.answer_user_question`, called at
chat/views.py lines 199 and 215, has no definition under src/ (LLMService in
src/research/services/llm_service.py defines only `query` and the four
`analyze_politician_*` methods). Per spec section 4.5 the Q&A variant of the
LLM adapter either answers directly from the supplied context or emits the
`SEARCH_QUERY:` sentinel requesting a web search, so it is modelled as an
oracle from question and context to the response text. `searchUrls` models
`SearchService.search` at line 206 (its result URLs; per C9 it returns a list
and never raises) and `fetchContent` models `SearchService.fetch_content` at
line 208. -/
structure QaEnv where
  answerUserQuestion : String → List String → String
  searchUrls : String → Nat → List String
  fetchContent : String → Except PyErr String

/-- Supplementary-content loop (views.py lines 206-212): fetch each search
result URL, skip failures, and keep non-empty content. -/
def collectAddl (env : QaEnv) : List String → List String
  | [] => []
  | u :: rest =>
    match env.fetchContent u with
    | .error _ => collectAddl env rest
    | .ok c => if c = "" then collectAddl env rest else c :: collectAddl env rest

/-- Content gathered by the single supplementary search round for a first
response `first` that requested a search: the query text after the
`SEARCH_QUERY:` tag is stripped and searched with `num_results=3`
(views.py lines 203-212). -/
def supplementalContents (env : QaEnv) (first : String) : List String :=
  let queryText := pyStrip (afterFirst "SEARCH_QUERY:" first)
  collectAddl env (env.searchUrls queryText 3)

/-- Strip the `ANSWER:` tag when present (views.py lines 217-226). -/
def stripAnswerTag (s : String) : String :=
  if sStartsWith s "ANSWER:" then pyStrip (afterFirst "ANSWER:" s) else s

/-- Result of one QuestionView.post invocation: the answer persisted in the
QandA row, and how many supplementary search rounds ran. -/
structure QaOutcome where
  finalAnswer : String
  searchRounds : Nat
deriving DecidableEq

/-- QuestionView.post core (views.py lines 197-233): ask the LLM; on a
`SEARCH_QUERY:` response perform one supplementary search-and-fetch round and
re-ask with the expanded context; if the final text still requests a search,
substitute the fixed fallback; persist `final or ""`. -/
def questionFlow (env : QaEnv) (question : String)
    (contextContents : List String) : QaOutcome :=
  let first := env.answerUserQuestion question contextContents
  let (final0, rounds) :=
    if sStartsWith first "SEARCH_QUERY:" then
      let expanded := contextContents ++ supplementalContents env first
      let second := env.answerUserQuestion question expanded
      (stripAnswerTag second, 1)
    else
      (stripAnswerTag first, 0)
  let final1 := if sStartsWith final0 "SEARCH_QUERY:" then "I don't know." else final0
  ⟨if final1 = "" then "" else final1, rounds⟩

/-! ### Concrete fixtures for counterexamples and witnesses -/

/-- Environment whose normalization returns the input name unchanged and whose
other collaborators return trivial data. -/
def envA : Env where
  normalize := fun n _ => .ok (n, none)
  llmAvailable := false
  searchFor := fun _ _ => .ok []
  fetchContent := fun _ => .ok ""
  analyzeBackground := fun _ _ _ => .ok ""
  analyzeAccomplishments := fun _ _ _ => .ok ""
  analyzeCriticisms := fun _ _ _ => .ok ""
  analyzeSummary := fun _ _ _ _ _ _ => .ok ""

/-- A stored politician row. -/
def polA : Politician := ⟨0, "Juan Cruz", "", none, 0⟩

/-- A research row for `polA` as Senator, created at day 0. -/
def rowA : ResearchRow := ⟨1, 0, "Senator", "bg", "acc", "crit", "sum", [], 0⟩

/-- Store holding `polA` and `rowA`. -/
def dbA : DB := ⟨[polA], [rowA], 2⟩

/-- Store holding an upper-cased politician name and a fresh research row for
it, for the case-sensitivity counterexample. -/
def dbB : DB := ⟨[⟨0, "JUAN CRUZ", "", none, 0⟩], [rowA], 2⟩

/-- Empty store. -/
def dbEmpty : DB := ⟨[], [], 0⟩

/-- Q&A environment whose LLM requests a search in every round and whose
supplementary search yields nothing. -/
def qaEnvA : QaEnv where
  answerUserQuestion := fun _ _ => "SEARCH_QUERY: more facts"
  searchUrls := fun _ _ => []
  fetchContent := fun _ => .error (.other "network down")

/-! ### Helper lemmas -/

/-- The de-duplication loop preserves and establishes `Nodup`. -/
lemma dedupLoop_nodup (l : List String) (acc : List String) (h : acc.Nodup) :
    (dedupLoop acc l).Nodup := by
  induction l generalizing acc with
  | nil => simpa [dedupLoop] using h
  | cons q rest ih =>
    by_cases hq : q ∈ acc
    · simpa [dedupLoop, hq] using ih acc h
    · simp only [dedupLoop, if_neg hq]
      refine ih _ (List.Nodup.append h (List.nodup_singleton q) ?_)
      intro a ha hb
      rw [List.mem_singleton] at hb
      subst hb
      exact hq ha

/-- Unfolding equation for `takesLead` on two cons cells. -/
lemma takesLead_cons (p : Char) (ps : List Char) (c : Char) (rest : List Char) :
    takesLead (p :: ps) (c :: rest) = (p == c && takesLead ps rest) := rfl

/-- A string starting with the search sentinel cannot start with the answer
tag. -/
lemma search_tag_not_answer_tag (s : String)
    (h : sStartsWith s "SEARCH_QUERY:" = true) :
    sStartsWith s "ANSWER:" = false := by
  unfold sStartsWith at h ⊢
  have hdS : "SEARCH_QUERY:".data = 'S' :: "EARCH_QUERY:".data := rfl
  have hdA : "ANSWER:".data = 'A' :: "NSWER:".data := rfl
  rw [hdS] at h
  rw [hdA]
  cases hs : s.data with
  | nil =>
    rw [hs] at h
    exact absurd h (by decide)
  | cons c rest =>
    rw [hs] at h
    rw [takesLead_cons] at h
    rw [takesLead_cons]
    rw [Bool.and_eq_true] at h
    obtain ⟨hc, -⟩ := h
    have : 'S' = c := by simpa using hc
    subst this
    have hAS : ('A' == 'S') = false := by decide
    rw [hAS, Bool.false_and]

/-- Cache-hit computation: with normalization succeeding, an existing
politician under the normalized name, and a latest result for the position
that is recent, the pipeline returns that result at once, mutating nothing,
with only the normalization and cache-check stages run. -/
lemma cache_hit_eq (env : Env) (db : DB) (now : Int) (name position : String)
    (maxAge : Int) (nname : String) (w : Option String) (pol : Politician)
    (r : ResearchRow)
    (hn : env.normalize name position = .ok (nname, w))
    (hf : findByName db nname = some pol)
    (hl : latestResult db pol.id position = some r)
    (hr : isRecent now r maxAge = true) :
    researchPolitician env db now name position maxAge =
      (.research r, db, [Event.normalizeStage, Event.cacheCheck]) := by
  simp only [researchPolitician, researchBody, getOrCreate, hn, hf, hl, hr,
    if_true, Bool.false_eq_true, if_false]

/-- Inversion: the pipeline can return a ResearchResult only through a cache
hit, because every path past the cache check reads the nonexistent
`politician.party` attribute. -/
lemma research_outcome_inv (env : Env) (db : DB) (now : Int)
    (name position : String) (maxAge : Int) (r : ResearchRow)
    (h : (researchPolitician env db now name position maxAge).1 = .research r) :
    ∃ nname w pol,
      env.normalize name position = .ok (nname, w) ∧
      findByName db nname = some pol ∧
      latestResult db pol.id position = some r ∧
      isRecent now r maxAge = true ∧
      researchPolitician env db now name position maxAge =
        (.research r, db, [Event.normalizeStage, Event.cacheCheck]) := by
  rcases hn : env.normalize name position with e | p
  · simp only [researchPolitician, researchBody, hn] at h
    simp at h
  · obtain ⟨nname, w⟩ := p
    rcases hf : findByName db nname with _ | pol
    · simp only [researchPolitician, researchBody, getOrCreate, hn, hf,
        enrichPolitician, getAttrParty, if_true] at h
      simp at h
    · rcases hl : latestResult db pol.id position with _ | r'
      · simp only [researchPolitician, researchBody, getOrCreate, hn, hf, hl,
          Bool.false_eq_true, if_false] at h
        simp at h
      · by_cases hr : isRecent now r' maxAge = true
        · simp only [researchPolitician, researchBody, getOrCreate, hn, hf, hl, hr,
            if_true, Bool.false_eq_true, if_false] at h
          simp only [Outcome.research.injEq] at h
          subst h
          exact ⟨nname, w, pol, rfl, hf, hl, hr,
            cache_hit_eq env db now name position maxAge nname w pol _ hn hf hl hr⟩
        · rw [Bool.not_eq_true] at hr
          simp only [researchPolitician, researchBody, getOrCreate, hn, hf, hl, hr,
            Bool.false_eq_true, if_false] at h
          simp at h

/-- Shape of `analyzePersist` outcomes: a persisted ResearchResult or one of
the two partial-result dictionaries, both keyed `politician`/`error`/
`content_list`. -/
lemma analyzePersist_shape (env : Env) (pol : Politician) (db : DB) (now : Int)
    (name position : String) (contentList : List ContentDict) (tr : List Event) :
    (∃ r, (analyzePersist env pol db now name position contentList tr).1 =
        Outcome.research r) ∨
    (∃ msg, (analyzePersist env pol db now name position contentList tr).1 =
        Outcome.dict [("politician", .pol pol), ("error", .str msg),
                      ("content_list", .contents contentList)]) := by
  by_cases hllm : (env.llmAvailable &&
      !(contentList.map (fun c => c.content)).isEmpty) = true
  · rcases hra : runAnalyses env name position
        (contentList.map (fun c => c.content)) with e | q
    · simp [analyzePersist, hllm, hra]
    · obtain ⟨bg, acc, crit, summ⟩ := q
      simp [analyzePersist, hllm, hra]
  · rw [Bool.not_eq_true] at hllm
    simp [analyzePersist, hllm]

/-- Shape of successful `researchBody` outcomes. -/
lemma researchBody_ok_shape (env : Env) (db : DB) (now : Int)
    (name position : String) (maxAge : Int) (out : Outcome) (db2 : DB)
    (tr : List Event)
    (h : researchBody env db now name position maxAge = .ok (out, db2, tr)) :
    (∃ r, out = Outcome.research r) ∨
    (∃ pol msg cl, out =
      Outcome.dict [("politician", .pol pol), ("error", .str msg),
                    ("content_list", .contents cl)]) := by
  rcases hn : env.normalize name position with e | p
  · simp only [researchBody, hn] at h
    cases h
  · obtain ⟨nname, w⟩ := p
    rcases hf : findByName db nname with _ | pol
    · simp only [researchBody, getOrCreate, hn, hf, enrichPolitician,
        getAttrParty, if_true] at h
      cases h
    · rcases hl : latestResult db pol.id position with _ | r
      · simp only [researchBody, getOrCreate, hn, hf, hl,
          Bool.false_eq_true, if_false] at h
        cases h
      · by_cases hr : isRecent now r maxAge = true
        · simp only [researchBody, getOrCreate, hn, hf, hl, hr, if_true,
            Bool.false_eq_true, if_false] at h
          obtain ⟨rfl, -, -⟩ := by
            simpa using h
          exact Or.inl ⟨r, rfl⟩
        · rw [Bool.not_eq_true] at hr
          simp only [researchBody, getOrCreate, hn, hf, hl, hr,
            Bool.false_eq_true, if_false] at h
          cases h

/-! ### Claim theorems -/

/-- C2. For every input (name, position, max_age) and every behaviour of the
external collaborators, `research_politician` never raises: it returns either
a ResearchResult or a dictionary carrying an `error` key, and every dictionary
additionally carries either the `politician` key (inner failure) or both
`name` and `position` (outermost failure). -/
theorem research_politician_shape (env : Env) (db : DB) (now : Int)
    (name position : String) (maxAge : Int) :
    (∃ r, (researchPolitician env db now name position maxAge).1 =
        Outcome.research r) ∨
    (∃ d, (researchPolitician env db now name position maxAge).1 =
        Outcome.dict d ∧
      (d.lookup "error").isSome = true ∧
      ((d.lookup "politician").isSome = true ∨
       ((d.lookup "name").isSome = true ∧ (d.lookup "position").isSome = true))) := by
  rcases hb : researchBody env db now name position maxAge with q | q
  · obtain ⟨e, nameNow, db2, tr⟩ := q
    refine Or.inr ⟨[("name", PyVal.str nameNow), ("position", PyVal.str position),
      ("error", PyVal.str e.message)], ?_, rfl, Or.inr ⟨rfl, rfl⟩⟩
    simp only [researchPolitician, hb]
  · obtain ⟨out, db2, tr⟩ := q
    have hout : (researchPolitician env db now name position maxAge).1 = out := by
      simp only [researchPolitician, hb]
    rcases researchBody_ok_shape env db now name position maxAge out db2 tr hb with
      ⟨r, hr⟩ | ⟨pol, msg, cl, hd⟩
    · exact Or.inl ⟨r, by rw [hout, hr]⟩
    · refine Or.inr ⟨_, by rw [hout, hd], ?_, Or.inl ?_⟩
      · rfl
      · rfl

/-- C10. URL classification: `is_website_url` rejects a URL whose path ends in
an excluded file extension (`https://x.com/doc.pdf`), accepts an ordinary page
URL (`https://x.com/article`), and rejects a relative, schemeless URL
(`/path`). -/
theorem url_classification_examples :
    is_website_url "https://x.com/doc.pdf" = false ∧
    is_website_url "https://x.com/article" = true ∧
    is_website_url "/path" = false := by
  refine ⟨by decide, by decide, by decide⟩

/-- C5 counterexample. The claim bounds the generated query list at
approximately 9-13 entries, but for ("Jane Doe", "Senator") the code builds 20
distinct queries (16 base plus 4 position-specific), so the stated bound
fails. -/
theorem query_count_counterexample :
    (generateSearchQueries "Jane Doe" "Senator").length = 20 ∧
    ¬ (generateSearchQueries "Jane Doe" "Senator").length ≤ 13 := by
  refine ⟨by decide, by decide⟩

/-- C5 amended. For every name and position the generated query list is
de-duplicated by exact string (no duplicate entries), and for
("Jane Doe", "Senator") it has 20 entries — 16 base templates plus 4
position-specific variants — including "Jane Doe Senator" and the
biography-style query "Jane Doe biography". -/
theorem query_generation_amended :
    (∀ name position, (generateSearchQueries name position).Nodup) ∧
    (generateSearchQueries "Jane Doe" "Senator").length = 20 ∧
    "Jane Doe Senator" ∈ generateSearchQueries "Jane Doe" "Senator" ∧
    "Jane Doe biography" ∈ generateSearchQueries "Jane Doe" "Senator" := by
  refine ⟨fun name position => ?_, by decide, by decide, by decide⟩
  exact dedupLoop_nodup _ _ List.nodup_nil

/-- C1 counterexample. The claim says a ResearchResult whose age equals
max_age is NOT reused. In the code `is_recent` compares with `<=`
(models.py line 55), so with `rowA` created at day 0, now = day 7 and
max_age = 7 the pipeline reuses the cached row. -/
theorem freshness_threshold_counterexample :
    (7 : Int) - rowA.createdAt = 7 ∧
    (researchPolitician envA dbA 7 "Juan Cruz" "Senator" 7).1 =
      Outcome.research rowA := by
  refine ⟨by decide, by decide⟩

/-- C1 amended. With normalization returning the name unchanged, an existing
politician of that exact name, and `r` the most recent result for the
position, the pipeline reuses `r` exactly when its age in days is less than
or equal to max_age: a result exactly at the threshold IS reused, and one a
unit above is not. -/
theorem freshness_boundary_le_iff (env : Env) (db : DB) (now : Int)
    (name position : String) (maxAge : Int) (w : Option String)
    (pol : Politician) (r : ResearchRow)
    (hn : env.normalize name position = .ok (name, w))
    (hf : findByName db name = some pol)
    (hl : latestResult db pol.id position = some r) :
    (researchPolitician env db now name position maxAge).1 =
        Outcome.research r ↔
      now - r.createdAt ≤ maxAge := by
  constructor
  · intro h
    obtain ⟨nname, w', pol', hn', hf', hl', hr', -⟩ :=
      research_outcome_inv env db now name position maxAge r h
    exact of_decide_eq_true hr'
  · intro h
    have := cache_hit_eq env db now name position maxAge name w pol r hn hf hl
      (decide_eq_true h)
    rw [this]

/-- C1 amended, witness at the concrete boundary instance. -/
theorem freshness_boundary_le_iff_witness :
    ((researchPolitician envA dbA 7 "Juan Cruz" "Senator" 7).1 =
        Outcome.research rowA ↔ (7 : Int) - rowA.createdAt ≤ 7) :=
  freshness_boundary_le_iff envA dbA 7 "Juan Cruz" "Senator" 7 none polA rowA
    rfl (by decide) (by decide)

/-- C3 counterexample. First conjunct: on a cache hit the recorded stage trace
is normalization followed by the cache check, so normalization runs on every
invocation and runs BEFORE the entity lookup, contradicting both the claimed
order and the claimed skip of normalization. Second conjunct: with the stored
name "JUAN CRUZ" and input "juan cruz" the lookup misses — `get_or_create` is
an exact case-sensitive match, not the claimed case-insensitive one — so the
pipeline creates a fresh entity and falls into the enrichment failure instead
of returning the fresh cached row. -/
theorem cache_check_order_counterexample :
    researchPolitician envA dbA 3 "Juan Cruz" "Senator" 7 =
      (Outcome.research rowA, dbA, [Event.normalizeStage, Event.cacheCheck]) ∧
    (researchPolitician envA dbB 3 "juan cruz" "Senator" 7).1 =
      Outcome.dict [("name", PyVal.str "juan cruz"),
                    ("position", PyVal.str "Senator"),
                    ("error", PyVal.str "Politician object has no attribute party")] := by
  refine ⟨by decide, by decide⟩

/-- C3 amended. Name normalization runs first on every invocation; the entity
is then looked up by exact case-sensitive match on the normalized name, and if
a sufficiently fresh ResearchResult exists for (entity, position) — the
position compared case-insensitively — the pipeline returns it immediately,
with no store mutation and no enrichment, query-generation, search, fetch,
analysis, or persistence stage run (there is no forced-refresh flag in the
code). -/
theorem normalization_then_exact_cache_hit (env : Env) (db : DB) (now : Int)
    (name position : String) (maxAge : Int) (nname : String) (w : Option String)
    (pol : Politician) (r : ResearchRow)
    (hn : env.normalize name position = .ok (nname, w))
    (hf : findByName db nname = some pol)
    (hl : latestResult db pol.id position = some r)
    (hfresh : now - r.createdAt ≤ maxAge) :
    researchPolitician env db now name position maxAge =
      (Outcome.research r, db, [Event.normalizeStage, Event.cacheCheck]) :=
  cache_hit_eq env db now name position maxAge nname w pol r hn hf hl
    (decide_eq_true hfresh)

/-- C3 amended, witness at a concrete fresh cache hit. -/
theorem normalization_then_exact_cache_hit_witness :
    researchPolitician envA dbA 3 "Juan Cruz" "Senator" 7 =
      (Outcome.research rowA, dbA, [Event.normalizeStage, Event.cacheCheck]) :=
  normalization_then_exact_cache_hit envA dbA 3 "Juan Cruz" "Senator" 7
    "Juan Cruz" none polA rowA rfl (by decide) (by decide) (by decide)

/-- C4. Whenever the enrichment branch runs for a previously unseen name (no
stored politician matches the normalized name, so the row is created and the
`created` short-circuit enters enrichment), `enrich_politician` fails at once
on the read of the nonexistent `party` attribute — behind it sit the equally
nonexistent `bio` and `issues` attributes and the undefined LLMService extract
methods — and the pipeline boundary converts the exception into the
name/position/error diagnostic dictionary instead of a ResearchResult. -/
theorem unseen_name_enrichment_error (env : Env) (db : DB) (now : Int)
    (name position : String) (maxAge : Int) (nname : String) (w : Option String)
    (hn : env.normalize name position = .ok (nname, w))
    (hnew : findByName db nname = none) :
    (∀ p pos, enrichPolitician p pos =
      .error (.attrError "Politician" "party")) ∧
    (∀ n pos c, llmExtractPartyAffiliation n pos c =
      .error (.attrError "LLMService" "extract_party_affiliation")) ∧
    (researchPolitician env db now name position maxAge).1 =
      Outcome.dict [("name", PyVal.str nname), ("position", PyVal.str position),
        ("error", PyVal.str (PyErr.attrError "Politician" "party").message)] := by
  refine ⟨fun p pos => rfl, fun n pos c => rfl, ?_⟩
  simp only [researchPolitician, researchBody, getOrCreate, hn, hnew,
    enrichPolitician, getAttrParty, if_true]

/-- C4 witness: a concrete unseen name on the empty store. -/
theorem unseen_name_enrichment_error_witness :
    (∀ p pos, enrichPolitician p pos =
      .error (.attrError "Politician" "party")) ∧
    (∀ n pos c, llmExtractPartyAffiliation n pos c =
      .error (.attrError "LLMService" "extract_party_affiliation")) ∧
    (researchPolitician envA dbEmpty 0 "Maria Reyes" "Governor" 7).1 =
      Outcome.dict [("name", PyVal.str "Maria Reyes"),
        ("position", PyVal.str "Governor"),
        ("error", PyVal.str (PyErr.attrError "Politician" "party").message)] :=
  unseen_name_enrichment_error envA dbEmpty 0 "Maria Reyes" "Governor" 7
    "Maria Reyes" none rfl (by decide)

/-- C6. Idempotence under freshness: if a call returns a ResearchResult `r`
and the pipeline is invoked again with the same name and position while `r` is
still within max_age days, the second call returns the same row `r` and
creates nothing — the store after the second call equals the store after the
first, which equals the initial store. -/
theorem research_idempotent_under_freshness (env : Env) (db : DB)
    (now1 now2 : Int) (name position : String) (maxAge : Int) (r : ResearchRow)
    (h1 : (researchPolitician env db now1 name position maxAge).1 =
      Outcome.research r)
    (h2 : now2 - r.createdAt ≤ maxAge) :
    (researchPolitician env db now1 name position maxAge).2.1 = db ∧
    (researchPolitician env
        ((researchPolitician env db now1 name position maxAge).2.1)
        now2 name position maxAge).1 = Outcome.research r ∧
    (researchPolitician env
        ((researchPolitician env db now1 name position maxAge).2.1)
        now2 name position maxAge).2.1 =
      (researchPolitician env db now1 name position maxAge).2.1 := by
  obtain ⟨nname, w, pol, hn, hf, hl, hr, heq⟩ :=
    research_outcome_inv env db now1 name position maxAge r h1
  have hdb : (researchPolitician env db now1 name position maxAge).2.1 = db := by
    rw [heq]
  have hsecond :=
    cache_hit_eq env db now2 name position maxAge nname w pol r hn hf hl
      (decide_eq_true h2)
  refine ⟨hdb, ?_, ?_⟩
  · rw [hdb, hsecond]
  · rw [hdb, hsecond]

/-- C6 witness: both calls on the concrete store return the cached row and
leave the store unchanged. -/
theorem research_idempotent_under_freshness_witness :
    (researchPolitician envA dbA 3 "Juan Cruz" "Senator" 7).2.1 = dbA ∧
    (researchPolitician envA
        ((researchPolitician envA dbA 3 "Juan Cruz" "Senator" 7).2.1)
        5 "Juan Cruz" "Senator" 7).1 = Outcome.research rowA ∧
    (researchPolitician envA
        ((researchPolitician envA dbA 3 "Juan Cruz" "Senator" 7).2.1)
        5 "Juan Cruz" "Senator" 7).2.1 =
      (researchPolitician envA dbA 3 "Juan Cruz" "Senator" 7).2.1 :=
  research_idempotent_under_freshness envA dbA 3 5 "Juan Cruz" "Senator" 7 rowA
    (by decide) (by decide)

/-- C7. Q&A bounded retry: if the initial LLM response requests a web search
and the response after the single supplementary search round again requests a
search, the flow performs exactly one supplementary round and the persisted
answer is exactly the fixed fallback string. -/
theorem qa_bounded_retry (env : QaEnv) (question : String)
    (context : List String)
    (h1 : sStartsWith (env.answerUserQuestion question context)
      "SEARCH_QUERY:" = true)
    (h2 : sStartsWith (env.answerUserQuestion question
        (context ++ supplementalContents env
          (env.answerUserQuestion question context)))
      "SEARCH_QUERY:" = true) :
    questionFlow env question context =
      { finalAnswer := "I don't know.", searchRounds := 1 } := by
  have hna := search_tag_not_answer_tag _ h2
  simp only [questionFlow, stripAnswerTag, h1, h2, hna, if_true,
    Bool.false_eq_true, if_false]
  simp

/-- C7 witness: a concrete LLM oracle that requests a search in both rounds. -/
theorem qa_bounded_retry_witness :
    questionFlow qaEnvA "Who is the mayor?" [] =
      { finalAnswer := "I don't know.", searchRounds := 1 } :=
  qa_bounded_retry qaEnvA "Who is the mayor?" [] rfl rfl

/-- C8 counterexample. With position "MP" the extract "mp garcia" contains
both the position keyword and the surname of "Ana Garcia", yet the matcher
returns false: the position branch demands `len(position) > 3`, and "garcia"
is in the common-surname list, so the claimed sufficient condition fails. -/
theorem verify_match_counterexample :
    strIn (pyLower "MP") (pyLower "mp garcia") = true ∧
    strIn (surnameOf "Ana Garcia") (pyLower "mp garcia") = true ∧
    verifyPoliticianMatch "mp garcia" "Ana Garcia" "MP" = false := by
  refine ⟨by decide, by decide, by decide⟩

/-- C8 amended. The matcher returns true when the position keyword is longer
than 3 characters and occurs (case-insensitively) in the text together with
the input surname; it returns false when the position branch does not fire,
there is no exact-name match, the surname is on the common-surname list, and
neither the initial-plus-surname pattern nor any role keyword supports the
match. -/
theorem verify_match_amended :
    (∀ text name position,
      position ≠ "" →
      3 < position.length →
      strIn (pyLower position) (pyLower text) = true →
      0 < (pySplitWs (pyLower name)).length →
      strIn (surnameOf name) (pyLower text) = true →
      verifyPoliticianMatch text name position = true) ∧
    (∀ text name position,
      ((position != "") && decide (3 < position.length) &&
        strIn (pyLower position) (pyLower text)) = false →
      strIn (pyLower name) (pyLower text) = false →
      commonSurnames.contains (surnameOf name) = true →
      (1 < (pySplitWs (pyLower name)).length →
        strIn (initialPlusSurname name) (pyLower text) = false) →
      politicalTerms.any (fun t => strIn t (pyLower text)) = false →
      verifyPoliticianMatch text name position = false) := by
  constructor
  · intro text name position hne hlen hposin hparts hsur
    have hA : (position != "") = true := bne_iff_ne.mpr hne
    simp [verifyPoliticianMatch, hA, decide_eq_true hlen, hposin,
      decide_eq_true hparts, hsur]
  · intro text name position hguard hexact hcommon hinit hterms
    simp only [verifyPoliticianMatch, hguard, Bool.false_and,
      Bool.false_eq_true, if_false, hexact]
    by_cases hcond2 : ((surnameOf name != "") &&
        strIn (surnameOf name) (pyLower text)) = true
    · rw [hcond2]
      simp only [if_true, hcommon, Bool.not_true, Bool.false_eq_true, if_false]
      by_cases hw : (100 < (pySplitWs (pyLower text)).length)
      · simp only [decide_eq_true hw, if_true]
        by_cases hp : 1 < (pySplitWs (pyLower name)).length
        · simp only [decide_eq_true hp, hinit hp, Bool.and_false,
            Bool.false_eq_true, if_false, hterms]
        · have hpd : decide (1 < (pySplitWs (pyLower name)).length) = false :=
            decide_eq_false hp
          simp only [hpd, Bool.false_and, Bool.false_eq_true, if_false, hterms]
      · have hwd : decide (100 < (pySplitWs (pyLower text)).length) = false :=
          decide_eq_false hw
        simp only [hwd, Bool.false_eq_true, if_false]
    · rw [Bool.not_eq_true] at hcond2
      rw [hcond2]
      simp

/-- C8 amended, witness on concrete extracts for both directions. -/
theorem verify_match_amended_witness :
    verifyPoliticianMatch "Senator Cruz wins" "Juan Cruz" "Senator" = true ∧
    verifyPoliticianMatch "garcia" "Ana Garcia" "Senator" = false :=
  ⟨verify_match_amended.1 "Senator Cruz wins" "Juan Cruz" "Senator"
      (by decide) (by decide) (by decide) (by decide) (by decide),
   verify_match_amended.2 "garcia" "Ana Garcia" "Senator"
      (by decide) (by decide) (by decide) (by decide) (by decide)⟩

/-- The per-URL collection loop never exceeds the requested count. -/
lemma collectResults_length_le (fetcher : String → Except PyErr (String × String))
    (n : Nat) (l : List String) (acc : List (String × String × String))
    (h : acc.length ≤ n) : (collectResults fetcher n acc l).length ≤ n := by
  induction l generalizing acc with
  | nil => simpa [collectResults] using h
  | cons u rest ih =>
    by_cases hstop : n ≤ acc.length
    · simpa [collectResults, hstop] using h
    · rcases hf : fetcher u with e | p
      · simp only [collectResults, if_neg hstop, hf]
        exact ih acc h
      · obtain ⟨title, snippet⟩ := p
        by_cases hsn : ((snippet != "") &&
            (pyStrip snippet != "No snippet available")) = true
        · simp only [collectResults, if_neg hstop, hf, hsn, if_true]
          refine ih _ ?_
          simp only [List.length_append, List.length_cons, List.length_nil]
          omega
        · rw [Bool.not_eq_true] at hsn
          simp only [collectResults, if_neg hstop, hf, hsn,
            Bool.false_eq_true, if_false]
          exact ih acc h

/-- The URLs of collected results follow the order of the input URL list. -/
lemma collectResults_url_sublist
    (fetcher : String → Except PyErr (String × String)) (n : Nat)
    (l : List String) (acc : List (String × String × String)) :
    List.Sublist ((collectResults fetcher n acc l).map (fun x => x.1))
      (acc.map (fun x => x.1) ++ l) := by
  induction l generalizing acc with
  | nil => simp [collectResults]
  | cons u rest ih =>
    have hskip : List.Sublist (acc.map (fun x => x.1) ++ rest)
        (acc.map (fun x => x.1) ++ (u :: rest)) :=
      List.Sublist.append_left (List.Sublist.cons u (List.Sublist.refl rest)) _
    by_cases hstop : n ≤ acc.length
    · simp only [collectResults, if_pos hstop]
      exact List.sublist_append_left _ _
    · rcases hf : fetcher u with e | p
      · simp only [collectResults, if_neg hstop, hf]
        exact (ih acc).trans hskip
      · obtain ⟨title, snippet⟩ := p
        by_cases hsn : ((snippet != "") &&
            (pyStrip snippet != "No snippet available")) = true
        · simp only [collectResults, if_neg hstop, hf, hsn, if_true]
          have := ih (acc ++ [(u, title, snippet)])
          rw [List.map_append] at this
          simpa [List.append_assoc] using this
        · rw [Bool.not_eq_true] at hsn
          simp only [collectResults, if_neg hstop, hf, hsn,
            Bool.false_eq_true, if_false]
          exact (ih acc).trans hskip

/-- Valid-URL collection yields a sublist of the accumulator followed by the
provider's URLs. -/
lemma collectValidUrls_sublist (cap : Nat) (l : List String)
    (acc : List String) :
    List.Sublist (collectValidUrls cap acc l) (acc ++ l) := by
  induction l generalizing acc with
  | nil => simp [collectValidUrls]
  | cons u rest ih =>
    by_cases hv : is_website_url u = true
    · simp only [collectValidUrls, hv, if_true]
      by_cases hc : cap ≤ (acc ++ [u]).length
      · rw [if_pos hc]
        exact List.Sublist.append_left
          (List.Sublist.cons₂ u (List.nil_sublist rest)) acc
      · rw [if_neg hc]
        have := ih (acc ++ [u])
        simpa [List.append_assoc] using this
    · rw [Bool.not_eq_true] at hv
      simp only [collectValidUrls, hv, Bool.false_eq_true, if_false]
      exact (ih acc).trans
        (List.Sublist.append_left (List.Sublist.cons u (List.Sublist.refl rest)) acc)

/-- C9. Search contract: `search(query, num_results)` on the default engine
always returns an ordered list (its URLs are a subsequence of the provider's
URL stream) of at most `num_results` records, each tagged with the
originating query; a total provider failure yields the empty list instead of
an exception, and a failing fetch of a single URL is skipped while the rest
of the batch continues. -/
theorem search_contract (provider : String → Nat → Except PyErr (List String))
    (fetcher : String → Except PyErr (String × String)) (query : String)
    (numResults : Nat) :
    (∃ hits, searchService "google" provider fetcher query numResults =
        .ok hits ∧
      hits.length ≤ numResults ∧
      (∀ h ∈ hits, h.query = query) ∧
      (List.Sublist (hits.map fun h => h.url)
        (match provider query (numResults * 3) with
         | .ok urls => urls
         | .error _ => []))) ∧
    (∀ e, provider query (numResults * 3) = .error e →
      searchService "google" provider fetcher query numResults = .ok []) ∧
    (∀ u rest acc e, acc.length < numResults → fetcher u = .error e →
      collectResults fetcher numResults acc (u :: rest) =
        collectResults fetcher numResults acc rest) := by
  have hsvc : searchService "google" provider fetcher query numResults =
      .ok ((googleSearch provider fetcher query numResults).map
        (fun r => SearchHit.mk r.1 r.2.1 r.2.2 query)) := rfl
  refine ⟨?_, ?_, ?_⟩
  · refine ⟨(googleSearch provider fetcher query numResults).map
      (fun r => SearchHit.mk r.1 r.2.1 r.2.2 query), hsvc, ?_, ?_, ?_⟩
    · rw [List.length_map]
      rcases hp : provider query (numResults * 3) with e | urls
      · simp [googleSearch, hp]
      · simp only [googleSearch, hp]
        exact collectResults_length_le fetcher numResults _ [] (Nat.zero_le _)
    · intro h hmem
      rw [List.mem_map] at hmem
      obtain ⟨r, -, rfl⟩ := hmem
      rfl
    · rcases hp : provider query (numResults * 3) with e | urls
      · simp [googleSearch, hp]
      · simp only [googleSearch, hp]
        have h1 : List.Sublist ((collectResults fetcher numResults []
              (collectValidUrls (numResults * 2) [] urls)).map (fun x => x.1))
            (collectValidUrls (numResults * 2) [] urls) := by
          simpa using collectResults_url_sublist fetcher numResults
            (collectValidUrls (numResults * 2) [] urls) []
        have h2 : List.Sublist (collectValidUrls (numResults * 2) [] urls)
            urls := by
          simpa using collectValidUrls_sublist (numResults * 2) urls []
        rw [List.map_map]
        exact h1.trans h2
  · intro e he
    rw [hsvc]
    simp [googleSearch, he]
  · intro u rest acc e hlt hf
    have hstop : ¬ numResults ≤ acc.length := by omega
    simp only [collectResults, if_neg hstop, hf]

/-- A search provider that is entirely unreachable. -/
def providerW : String → Nat → Except PyErr (List String) :=
  fun _ _ => .error (.other "provider down")

/-- A title-and-snippet fetcher that fails on every URL. -/
def fetcherW : String → Except PyErr (String × String) :=
  fun _ => .error (.other "fetch failed")

/-- C9 witness: a total provider failure returns the empty list, and a failing
URL is skipped while the loop continues. -/
theorem search_contract_witness :
    searchService "google" providerW fetcherW "Jane Doe Senator" 1 = .ok [] ∧
    collectResults fetcherW 1 [] ["https://x.com/a"] =
      collectResults fetcherW 1 [] [] :=
  ⟨(search_contract providerW fetcherW "Jane Doe Senator" 1).2.1
      (.other "provider down") rfl,
   (search_contract providerW fetcherW "Jane Doe Senator" 1).2.2
      "https://x.com/a" [] [] (.other "fetch failed") (by decide) rfl⟩

end Clara
